import Mathlib

/-!
Shallow embedding of `src/recintos-zoo.js` and `src/animais-zoo.js`
(zoo-enclosure allocation challenge).

JavaScript numbers are modelled as rationals (`Rat`): every quantity the
program manipulates (sizes, capacities, counts) is a small exact dyadic
value, so `Rat` arithmetic coincides with IEEE double arithmetic on the
reachable values.  JS strings are `String`, JS arrays are `List`, and the
JS `Set` stored in `listaEspecies` is a duplicate-free `List String`
(insertion adds only absent elements, as `Set.add` does).

Untyped arguments of the public interface (`analisaRecintos(animal,
quantidade)` accepts arbitrary JS values) are modelled by `JSVal`, which
distinguishes the only cases the code's `typeof` tests distinguish:
strings, numbers, and everything else.
-/

/-- String literals of the program (species identifiers). -/
def especieLEAO : String := "LEAO"

def especieLEOPARDO : String := "LEOPARDO"

def especieCROCODILO : String := "CROCODILO"

def especieMACACO : String := "MACACO"

def especieGAZELA : String := "GAZELA"

def especieHIPOPOTAMO : String := "HIPOPOTAMO"

/-- Habitat tags used by the program. -/
def biomaSavana : String := "savana"

def biomaFloresta : String := "floresta"

def biomaRio : String := "rio"

/-- Error message for a non-string or unknown species argument. -/
def msgAnimalInvalido : String := "Animal inválido"

/-- Error message for a non-number or non-positive count argument. -/
def msgQuantidadeInvalida : String := "Quantidade inválida"

/-- Error message when no enclosure can host the batch. -/
def msgSemRecintoViavel : String := "Não há recinto viável"

/-- An unknown species name used to exercise the validation path. -/
def strCACHORRO : String := "CACHORRO"

/-- Which `estaConfortavel` override a batch carries: the base-class
default (`LoteAnimal.estaConfortavel`), the `Macaco` override, or the
`Hipopotamo` override.  This encodes the JS subclass dispatch. -/
inductive EspecieConforto where
  | padrao
  | macaco
  | hipopotamo
deriving DecidableEq

/-- `LoteAnimal` of `animais-zoo.js`: a batch of animals of one species.
The `carnivoro` field encodes the `isCarnivoro()` override of
`LoteAnimalCarnivoro`; `conforto` encodes the comfort-predicate
override of the concrete subclass. -/
structure LoteAnimal where
  especie : String
  tamanho : Rat
  biomas : List String
  qtdeLote : Rat
  carnivoro : Bool
  conforto : EspecieConforto
deriving DecidableEq

/-- `isCarnivoro()`: base class returns `false`, `LoteAnimalCarnivoro`
overrides to `true`; flattened into the `carnivoro` field. -/
def LoteAnimal.isCarnivoro (l : LoteAnimal) : Bool :=
  l.carnivoro

/-- Getter `tamanhoLote`: space the whole batch needs
(`this.tamanho * this.qtdeLote`). -/
def LoteAnimal.tamanhoLote (l : LoteAnimal) : Rat :=
  l.tamanho * l.qtdeLote

/-- `verificaBiomaAdequado(biomasRecinto)`: some accepted habitat of the
batch occurs among the enclosure's habitats. -/
def LoteAnimal.verificaBiomaAdequado (l : LoteAnimal) (biomasRecinto : List String) : Bool :=
  l.biomas.any (fun b => biomasRecinto.contains b)

/-- `verificaEspacoSuficente(espacoDisponivel)`:
`espacoDisponivel >= this.qtdeLote * this.tamanho`. -/
def LoteAnimal.verificaEspacoSuficente (l : LoteAnimal) (espacoDisponivel : Rat) : Bool :=
  decide (l.qtdeLote * l.tamanho ≤ espacoDisponivel)

/-- Constructor of class `Leao` (carnivore, size 3, savanna). -/
def Leao (qtdeLote : Rat) : LoteAnimal :=
  ⟨especieLEAO, 3, [biomaSavana], qtdeLote, true, EspecieConforto.padrao⟩

/-- Constructor of class `Leopardo` (carnivore, size 2, savanna). -/
def Leopardo (qtdeLote : Rat) : LoteAnimal :=
  ⟨especieLEOPARDO, 2, [biomaSavana], qtdeLote, true, EspecieConforto.padrao⟩

/-- Constructor of class `Crocodilo` (carnivore, size 3, river). -/
def Crocodilo (qtdeLote : Rat) : LoteAnimal :=
  ⟨especieCROCODILO, 3, [biomaRio], qtdeLote, true, EspecieConforto.padrao⟩

/-- Constructor of class `Macaco` (size 1, savanna or forest, comfort
override: a lone monkey refuses an empty enclosure). -/
def Macaco (qtdeLote : Rat) : LoteAnimal :=
  ⟨especieMACACO, 1, [biomaSavana, biomaFloresta], qtdeLote, false, EspecieConforto.macaco⟩

/-- Constructor of class `Gazela` (size 2, savanna). -/
def Gazela (qtdeLote : Rat) : LoteAnimal :=
  ⟨especieGAZELA, 2, [biomaSavana], qtdeLote, false, EspecieConforto.padrao⟩

/-- Constructor of class `Hipopotamo` (size 4, savanna or river, comfort
override: tolerates other species only with both savanna and river). -/
def Hipopotamo (qtdeLote : Rat) : LoteAnimal :=
  ⟨especieHIPOPOTAMO, 4, [biomaSavana, biomaRio], qtdeLote, false, EspecieConforto.hipopotamo⟩

/-- `Hipopotamo.toleraOutrasEspecies(biomasRecinto)`: the enclosure has
both the savanna and the river habitat. -/
def toleraOutrasEspecies (biomasRecinto : List String) : Bool :=
  biomasRecinto.contains biomaSavana && biomasRecinto.contains biomaRio

/-- `Recinto` of `recintos-zoo.js`: an enclosure.  `listaEspecies`
models the JS `Set` as a duplicate-free list. -/
structure Recinto where
  id : Nat
  biomas : List String
  tamanhoTotal : Rat
  tamanhoOcupado : Rat
  animaisExistentes : List LoteAnimal
  listaEspecies : List String
  flagContemCarnivoros : Bool
deriving DecidableEq

/-- `temOutrasEspecies(especie)`: the resident species set has more than
one member, or exactly one member different from `especie`. -/
def Recinto.temOutrasEspecies (r : Recinto) (especie : String) : Bool :=
  decide (r.listaEspecies.length > 1) ||
    (decide (r.listaEspecies.length = 1) && !(r.listaEspecies.contains especie))

/-- `getEspacoDisponivel(especie)`: remaining space, minus one extra
unit when the enclosure would hold mixed species. -/
def Recinto.getEspacoDisponivel (r : Recinto) (especie : String) : Rat :=
  let espacoRestante := r.tamanhoTotal - r.tamanhoOcupado
  if r.temOutrasEspecies especie then espacoRestante - 1 else espacoRestante

/-- `estaConfortavel(recinto)` with the subclass dispatch of the JS
classes: the base-class rule (suitable habitat and enough space), the
`Macaco` override (additionally, a lone monkey refuses an enclosure
whose available space equals its total size), and the `Hipopotamo`
override (additionally, with other species present the enclosure must
have both savanna and river). -/
def LoteAnimal.estaConfortavel (l : LoteAnimal) (r : Recinto) : Bool :=
  match l.conforto with
  | EspecieConforto.padrao =>
      l.verificaBiomaAdequado r.biomas &&
        l.verificaEspacoSuficente (r.getEspacoDisponivel l.especie)
  | EspecieConforto.macaco =>
      if l.verificaBiomaAdequado r.biomas &&
          l.verificaEspacoSuficente (r.getEspacoDisponivel l.especie) then
        if l.qtdeLote == 1 && r.getEspacoDisponivel l.especie == r.tamanhoTotal then
          false
        else
          true
      else
        false
  | EspecieConforto.hipopotamo =>
      if l.verificaBiomaAdequado r.biomas &&
          l.verificaEspacoSuficente (r.getEspacoDisponivel l.especie) then
        if r.temOutrasEspecies l.especie then
          toleraOutrasEspecies r.biomas
        else
          true
      else
        false

/-- The hippo-cohabitation early return of `consegueAcomodarLote`:
hippos are resident, the batch is another species, and the enclosure
lacks the river or the savanna habitat. -/
def bloqueioHipopotamo (r : Recinto) (l : LoteAnimal) : Bool :=
  (r.listaEspecies.contains especieHIPOPOTAMO && l.especie != especieHIPOPOTAMO) &&
    (!(r.biomas.contains biomaRio) || !(r.biomas.contains biomaSavana))

/-- The carnivore early return of `consegueAcomodarLote`: carnivores are
present and the batch's species is not yet resident, or the batch is
carnivorous, no carnivores are present, and some species is resident. -/
def bloqueioCarnivoro (r : Recinto) (l : LoteAnimal) : Bool :=
  (r.flagContemCarnivoros && !(r.listaEspecies.contains l.especie)) ||
    (l.isCarnivoro && !r.flagContemCarnivoros && decide (r.listaEspecies.length > 0))

/-- `consegueAcomodarLote(loteAnimais)`: comfort first, then the
hippo-cohabitation rule, then the carnivore-exclusivity rule. -/
def Recinto.consegueAcomodarLote (r : Recinto) (l : LoteAnimal) : Bool :=
  if !(l.estaConfortavel r) then false
  else if bloqueioHipopotamo r l then false
  else if bloqueioCarnivoro r l then false
  else true

/-- `adicionaLoteAnimais(loteAnimais)`: on success update the carnivore
flag, the species set (`Set.add` semantics), the batch list, and the
occupied space; otherwise leave the enclosure unchanged. -/
def Recinto.adicionaLoteAnimais (r : Recinto) (l : LoteAnimal) : Recinto :=
  if r.consegueAcomodarLote l then
    { r with
      flagContemCarnivoros := if l.isCarnivoro then true else r.flagContemCarnivoros,
      listaEspecies :=
        if r.listaEspecies.contains l.especie then r.listaEspecies
        else r.listaEspecies ++ [l.especie],
      animaisExistentes := r.animaisExistentes ++ [l],
      tamanhoOcupado := r.tamanhoOcupado + l.tamanhoLote }
  else r

/-- The `Recinto` constructor: empty enclosure, then the pre-existing
batches are admitted one by one through `adicionaLoteAnimais`. -/
def Recinto.init (id : Nat) (biomas : List String) (tamanhoTotal : Rat)
    (animaisPreExistentes : List LoteAnimal) : Recinto :=
  animaisPreExistentes.foldl Recinto.adicionaLoteAnimais
    { id := id, biomas := biomas, tamanhoTotal := tamanhoTotal, tamanhoOcupado := 0,
      animaisExistentes := [], listaEspecies := [], flagContemCarnivoros := false }

/-- A JavaScript value as far as the program's `typeof` tests can tell:
a string, a number, or anything else. -/
inductive JSVal where
  | vstr (s : String)
  | vnum (q : Rat)
  | vother
deriving DecidableEq

/-- Result of `FabricaLoteAnimais.geraLote`: an error string or a batch. -/
inductive LoteResult where
  | erro (mensagem : String)
  | lote (l : LoteAnimal)
deriving DecidableEq

/-- `FabricaLoteAnimais.geraLote(especie, qtdeLote)`: non-string species
fails, then non-number or non-positive count fails, then the uppercased
name is matched against the catalog (unknown names fail). -/
def geraLote (especie qtdeLote : JSVal) : LoteResult :=
  match especie with
  | JSVal.vstr s =>
      match qtdeLote with
      | JSVal.vnum q =>
          if q ≤ 0 then LoteResult.erro msgQuantidadeInvalida
          else
            if s.toUpper == especieLEAO then LoteResult.lote (Leao q)
            else if s.toUpper == especieLEOPARDO then LoteResult.lote (Leopardo q)
            else if s.toUpper == especieCROCODILO then LoteResult.lote (Crocodilo q)
            else if s.toUpper == especieMACACO then LoteResult.lote (Macaco q)
            else if s.toUpper == especieGAZELA then LoteResult.lote (Gazela q)
            else if s.toUpper == especieHIPOPOTAMO then LoteResult.lote (Hipopotamo q)
            else LoteResult.erro msgAnimalInvalido
      | _ => LoteResult.erro msgQuantidadeInvalida
  | _ => LoteResult.erro msgAnimalInvalido

/-- One entry pushed onto `recintosViaveis` by `analisaRecintos`:
the enclosure and the free space left after the hypothetical admission. -/
structure OpcaoRecinto where
  recinto : Recinto
  espacoLivre : Rat
deriving DecidableEq

/-- Result of `analisaRecintos`: the error object or the structured
content of the viable-enclosure list (of which `geraSaidaEsperada` is a
pure string rendering). -/
inductive Saida where
  | erro (mensagem : String)
  | recintosViaveis (lista : List OpcaoRecinto)
deriving DecidableEq

/-- The raw `animal` argument as the string `analisaRecintos` passes to
`getEspacoDisponivel` on line 197; only consulted after `geraLote`
succeeded, which forces the argument to be a string. -/
def especieStr : JSVal → String
  | JSVal.vstr s => s
  | _ => ""

/-- The body of the `forEach` loop of `analisaRecintos`: append the
enclosure (with its post-admission free space) when it can host the
batch. -/
def passoAnalise (novoLote : LoteAnimal) (animalStr : String)
    (acc : List OpcaoRecinto) (recinto : Recinto) : List OpcaoRecinto :=
  if recinto.consegueAcomodarLote novoLote then
    acc ++ [⟨recinto, recinto.getEspacoDisponivel animalStr - novoLote.tamanhoLote⟩]
  else acc

/-- `RecintosZoo.analisaRecintos(animal, quantidade)` over a given
enclosure list: build the batch (propagating validation errors), filter
the enclosures that can host it, and return them or the
no-viable-enclosure error. -/
def analisaRecintos (listaRecintos : List Recinto) (animal quantidade : JSVal) : Saida :=
  match geraLote animal quantidade with
  | LoteResult.erro mensagem => Saida.erro mensagem
  | LoteResult.lote novoLote =>
      let recintosViaveis := listaRecintos.foldl (passoAnalise novoLote (especieStr animal)) []
      if recintosViaveis.length > 0 then Saida.recintosViaveis recintosViaveis
      else Saida.erro msgSemRecintoViavel

/-- The loop body of `analisaRecintos` in state-passing form: alongside
the viable list it threads the enclosure list as the loop leaves it.
Every enclosure method called on the analysis path
(`consegueAcomodarLote`, `estaConfortavel`, `getEspacoDisponivel`,
`temOutrasEspecies`) performs no assignment in the source, so the
visited enclosure is passed on as the call returns it: unchanged. -/
def passoAnaliseSt (novoLote : LoteAnimal) (animalStr : String)
    (acc : List OpcaoRecinto × List Recinto) (recinto : Recinto) :
    List OpcaoRecinto × List Recinto :=
  (passoAnalise novoLote animalStr acc.1 recinto, acc.2 ++ [recinto])

/-- `analisaRecintos` in state-passing form: returns the result together
with the enclosure list as the call leaves it. -/
def analisaRecintosSt (listaRecintos : List Recinto) (animal quantidade : JSVal) :
    Saida × List Recinto :=
  match geraLote animal quantidade with
  | LoteResult.erro mensagem => (Saida.erro mensagem, listaRecintos)
  | LoteResult.lote novoLote =>
      let passo := listaRecintos.foldl (passoAnaliseSt novoLote (especieStr animal)) ([], [])
      (if passo.1.length > 0 then Saida.recintosViaveis passo.1
       else Saida.erro msgSemRecintoViavel, passo.2)

/-- Seed enclosure 1: savanna, capacity 10, hosting 3 monkeys. -/
def recinto1 : Recinto := Recinto.init 1 [biomaSavana] 10 [Macaco 3]

/-- Seed enclosure 2: forest, capacity 5, empty. -/
def recinto2 : Recinto := Recinto.init 2 [biomaFloresta] 5 []

/-- Seed enclosure 3: savanna and river, capacity 7, hosting 1 gazelle. -/
def recinto3 : Recinto := Recinto.init 3 [biomaSavana, biomaRio] 7 [Gazela 1]

/-- Seed enclosure 4: river, capacity 8, empty. -/
def recinto4 : Recinto := Recinto.init 4 [biomaRio] 8 []

/-- Seed enclosure 5: savanna, capacity 9, hosting 1 lion. -/
def recinto5 : Recinto := Recinto.init 5 [biomaSavana] 9 [Leao 1]

/-- `inicializaRecintos` of `RecintosZoo`: the seed dataset. -/
def inicializaRecintos : List Recinto :=
  [recinto1, recinto2, recinto3, recinto4, recinto5]

/-- The viable list the code computes for 3 monkeys on the seed data. -/
def viaveisMacaco3 : List OpcaoRecinto :=
  [⟨recinto1, 4⟩, ⟨recinto2, 2⟩, ⟨recinto3, 1⟩]

/-- An auxiliary enclosure hosting a hippopotamus batch, used to
exercise the cross-species direction of the hippo rule. -/
def recintoComHipopotamo : Recinto :=
  Recinto.init 6 [biomaSavana, biomaRio] 10 [Hipopotamo 1]

/-- Helper: `consegueAcomodarLote` as the conjunction of its three
checks (comfort, no hippo block, no carnivore block). -/
theorem consegueAcomodarLote_eq (r : Recinto) (l : LoteAnimal) :
    r.consegueAcomodarLote l =
      (l.estaConfortavel r && !(bloqueioHipopotamo r l) && !(bloqueioCarnivoro r l)) := by
  cases hA : l.estaConfortavel r <;> cases hB : bloqueioHipopotamo r l <;>
    cases hC : bloqueioCarnivoro r l <;>
      simp [Recinto.consegueAcomodarLote, hA, hB, hC]

/-- Helper: increasing only the occupied space leaves
`temOutrasEspecies` unchanged. -/
theorem temOutrasEspecies_ocupado (r : Recinto) (x : Rat) (e : String) :
    Recinto.temOutrasEspecies { r with tamanhoOcupado := x } e = r.temOutrasEspecies e := rfl

/-- Helper: increasing the occupied space by `d` decreases the
available space by `d`. -/
theorem getEspacoDisponivel_ocupado (r : Recinto) (d : Rat) (e : String) :
    Recinto.getEspacoDisponivel { r with tamanhoOcupado := r.tamanhoOcupado + d } e =
      r.getEspacoDisponivel e - d := by
  cases hc : r.temOutrasEspecies e <;>
    simp [Recinto.getEspacoDisponivel, temOutrasEspecies_ocupado, hc] <;> ring

/-- C4: `getEspacoDisponivel` equals capacity minus occupied space,
minus one extra unit exactly when the enclosure hosts another species,
and `temOutrasEspecies` holds iff the resident species set has more than
one member or exactly one member different from the given species. -/
theorem getEspacoDisponivel_spec (r : Recinto) (especie : String) :
    r.getEspacoDisponivel especie =
        r.tamanhoTotal - r.tamanhoOcupado -
          (if r.temOutrasEspecies especie then 1 else 0) ∧
      (r.temOutrasEspecies especie = true ↔
        1 < r.listaEspecies.length ∨
          (r.listaEspecies.length = 1 ∧ r.listaEspecies.contains especie = false)) := by
  constructor
  · cases hc : r.temOutrasEspecies especie <;>
      simp [Recinto.getEspacoDisponivel, hc]
  · simp [Recinto.temOutrasEspecies, Bool.or_eq_true, Bool.and_eq_true,
      decide_eq_true_eq, Bool.not_eq_true']

/-- C5: for a species without a comfort override, comfort holds iff some
accepted habitat occurs among the enclosure's habitats and the free
space for the species is at least the batch's total requirement. -/
theorem estaConfortavel_padrao (l : LoteAnimal) (r : Recinto)
    (h : l.conforto = EspecieConforto.padrao) :
    (l.estaConfortavel r = true ↔
      ((∃ b ∈ l.biomas, b ∈ r.biomas) ∧
        l.tamanho * l.qtdeLote ≤ r.getEspacoDisponivel l.especie)) := by
  obtain ⟨le, lt, lb, lq, lc, lk⟩ := l
  cases lk
  case padrao =>
    simp [LoteAnimal.estaConfortavel, LoteAnimal.verificaBiomaAdequado,
      LoteAnimal.verificaEspacoSuficente, List.any_eq_true, List.elem_iff,
      Bool.and_eq_true, decide_eq_true_eq, mul_comm]
  all_goals cases h

/-- C5 witness: 2 gazelles against seed enclosure 3. -/
theorem estaConfortavel_padrao_witness :
    (Gazela 2).conforto = EspecieConforto.padrao ∧
      ((Gazela 2).estaConfortavel recinto3 = true ↔
        ((∃ b ∈ (Gazela 2).biomas, b ∈ recinto3.biomas) ∧
          (Gazela 2).tamanho * (Gazela 2).qtdeLote ≤
            recinto3.getEspacoDisponivel (Gazela 2).especie)) :=
  ⟨by decide, estaConfortavel_padrao (Gazela 2) recinto3 (by decide)⟩

/-- C6: a monkey-rule batch of count exactly 1 is never comfortable in
an enclosure whose available space for it equals the total capacity
(a truly empty enclosure). -/
theorem macaco_solitario_recusa_vazio (l : LoteAnimal) (r : Recinto)
    (hk : l.conforto = EspecieConforto.macaco) (hq : l.qtdeLote = 1)
    (he : r.getEspacoDisponivel l.especie = r.tamanhoTotal) :
    l.estaConfortavel r = false := by
  obtain ⟨le, lt, lb, lq, lc, lk⟩ := l
  cases lk
  case macaco =>
    simp only at hq he
    simp [LoteAnimal.estaConfortavel, hq, he]
  all_goals cases hk

/-- C6 witness: 1 monkey against the empty forest enclosure of
capacity 5 (seed enclosure 2) is refused, hence not viable. -/
theorem macaco_solitario_recusa_vazio_witness :
    (Macaco 1).conforto = EspecieConforto.macaco ∧
      (Macaco 1).qtdeLote = 1 ∧
      recinto2.getEspacoDisponivel (Macaco 1).especie = recinto2.tamanhoTotal ∧
      (Macaco 1).estaConfortavel recinto2 = false ∧
      Recinto.consegueAcomodarLote recinto2 (Macaco 1) = false :=
  ⟨by decide, by decide, by with_unfolding_all decide,
    macaco_solitario_recusa_vazio (Macaco 1) recinto2 (by decide) (by decide)
      (by with_unfolding_all decide),
    by with_unfolding_all decide⟩

/-- Helper: comfort is antitone in the occupied space, except for the
lone-monkey rule (a monkey batch of count 1 detects emptiness through
the available space, which an occupancy increase can defeat). -/
theorem estaConfortavel_mono (l : LoteAnimal) (r : Recinto) (d : Rat)
    (hd : 0 ≤ d) (hm : l.conforto = EspecieConforto.macaco → l.qtdeLote ≠ 1)
    (h : l.estaConfortavel { r with tamanhoOcupado := r.tamanhoOcupado + d } = true) :
    l.estaConfortavel r = true := by
  obtain ⟨lesp, ltam, lbio, lqt, lcar, lkon⟩ := l
  cases lkon
  case padrao =>
    simp only [LoteAnimal.estaConfortavel, Bool.and_eq_true,
      LoteAnimal.verificaEspacoSuficente, getEspacoDisponivel_ocupado,
      decide_eq_true_eq] at h ⊢
    exact ⟨h.1, by linarith [h.2]⟩
  case macaco =>
    have hq : lqt ≠ 1 := hm rfl
    have hq1 : (lqt == 1) = false := beq_eq_false_iff_ne.mpr hq
    simp only [LoteAnimal.estaConfortavel] at h ⊢
    simp [hq1, LoteAnimal.verificaEspacoSuficente, decide_eq_true_eq,
      getEspacoDisponivel_ocupado] at h ⊢
    exact ⟨h.1, by linarith [h.2]⟩
  case hipopotamo =>
    cases hto : r.temOutrasEspecies lesp with
    | false =>
        simp [LoteAnimal.estaConfortavel, temOutrasEspecies_ocupado, hto,
          LoteAnimal.verificaEspacoSuficente, decide_eq_true_eq,
          getEspacoDisponivel_ocupado] at h ⊢
        exact ⟨h.1, by linarith [h.2]⟩
    | true =>
        cases htol : toleraOutrasEspecies r.biomas with
        | false =>
            simp [LoteAnimal.estaConfortavel, temOutrasEspecies_ocupado, hto, htol] at h
        | true =>
            simp [LoteAnimal.estaConfortavel, temOutrasEspecies_ocupado, hto, htol,
              LoteAnimal.verificaEspacoSuficente, decide_eq_true_eq,
              getEspacoDisponivel_ocupado] at h ⊢
            exact ⟨h.1, by linarith [h.2]⟩

/-- C3 (amended): for every batch that is not a lone monkey batch
(count 1 with the monkey comfort rule), increasing an enclosure's
occupied space — all other state unchanged — can only remove it from
the viable set: if the enclosure can host the batch after the increase,
it could before. -/
theorem consegueAcomodar_monotono (l : LoteAnimal) (r : Recinto) (d : Rat)
    (hd : 0 ≤ d) (hm : l.conforto = EspecieConforto.macaco → l.qtdeLote ≠ 1)
    (h : Recinto.consegueAcomodarLote { r with tamanhoOcupado := r.tamanhoOcupado + d } l =
      true) :
    Recinto.consegueAcomodarLote r l = true := by
  rw [consegueAcomodarLote_eq] at h ⊢
  have hbh : bloqueioHipopotamo { r with tamanhoOcupado := r.tamanhoOcupado + d } l =
      bloqueioHipopotamo r l := rfl
  have hbc : bloqueioCarnivoro { r with tamanhoOcupado := r.tamanhoOcupado + d } l =
      bloqueioCarnivoro r l := rfl
  rw [hbh, hbc] at h
  simp only [Bool.and_eq_true] at h ⊢
  exact ⟨⟨estaConfortavel_mono l r d hd hm h.1.1, h.1.2⟩, h.2⟩

/-- C3 witness: 1 gazelle against seed enclosure 3 with one extra unit
of occupied space; monotonicity transfers viability back to the
unmodified enclosure. -/
theorem consegueAcomodar_monotono_witness :
    (0 : Rat) ≤ 1 ∧
      Recinto.consegueAcomodarLote
        { recinto3 with tamanhoOcupado := recinto3.tamanhoOcupado + 1 } (Gazela 1) = true ∧
      Recinto.consegueAcomodarLote recinto3 (Gazela 1) = true :=
  ⟨by norm_num, by with_unfolding_all decide,
    consegueAcomodar_monotono (Gazela 1) recinto3 1 (by norm_num) (by decide)
      (by with_unfolding_all decide)⟩

/-- C3 counterexample: the claim as stated is false.  A lone monkey is
not viable for the empty seed enclosure 2, but after increasing that
enclosure's occupied space by one unit — all other state unchanged —
the enclosure becomes viable, so an increase can add an enclosure to
the viable set of `analisaRecintos`. -/
theorem monotonicidade_contraexemplo :
    analisaRecintos [recinto2] (JSVal.vstr especieMACACO) (JSVal.vnum 1) =
        Saida.erro msgSemRecintoViavel ∧
      analisaRecintos [{ recinto2 with tamanhoOcupado := recinto2.tamanhoOcupado + 1 }]
          (JSVal.vstr especieMACACO) (JSVal.vnum 1) =
        Saida.recintosViaveis
          [⟨{ recinto2 with tamanhoOcupado := recinto2.tamanhoOcupado + 1 }, 3⟩] ∧
      (0 : Rat) ≤ 1 := by
  refine ⟨by with_unfolding_all decide, by with_unfolding_all decide, by norm_num⟩

/-- C1 counterexample: the claim as stated is false on the seed data.
`analisaRecintos("MACACO", 3)` returns enclosures 1, 2 and 3 with free
spaces 4, 2 and 1: enclosure 2 is viable (monkeys accept the forest
habitat), contradicting the claimed rejection, and no viable entry has
free space 6, contradicting the claimed entry for enclosure 1. -/
theorem analisaRecintos_macaco3_contraexemplo :
    analisaRecintos inicializaRecintos (JSVal.vstr especieMACACO) (JSVal.vnum 3) =
        Saida.recintosViaveis viaveisMacaco3 ∧
      Recinto.consegueAcomodarLote recinto2 (Macaco 3) = true ∧
      viaveisMacaco3.all (fun o => o.espacoLivre != 6) = true := by
  refine ⟨by with_unfolding_all decide, by with_unfolding_all decide,
    by with_unfolding_all decide⟩

/-- C1 (amended): for the seed dataset, `analisaRecintos("MACACO", 3)`
returns exactly enclosures 1 (free 4, total 10), 2 (free 2, total 5)
and 3 (free 1, total 7); enclosure 4 is rejected for wrong habitat, and
enclosure 5 — in which the batch would be comfortable — is rejected
because a carnivore is present. -/
theorem analisaRecintos_macaco3 :
    analisaRecintos inicializaRecintos (JSVal.vstr especieMACACO) (JSVal.vnum 3) =
        Saida.recintosViaveis viaveisMacaco3 ∧
      recinto1.id = 1 ∧ recinto1.tamanhoTotal = 10 ∧
      recinto2.id = 2 ∧ recinto2.tamanhoTotal = 5 ∧
      recinto3.id = 3 ∧ recinto3.tamanhoTotal = 7 ∧
      (Macaco 3).verificaBiomaAdequado recinto4.biomas = false ∧
      Recinto.consegueAcomodarLote recinto4 (Macaco 3) = false ∧
      recinto5.flagContemCarnivoros = true ∧
      (Macaco 3).estaConfortavel recinto5 = true ∧
      bloqueioCarnivoro recinto5 (Macaco 3) = true ∧
      Recinto.consegueAcomodarLote recinto5 (Macaco 3) = false := by
  with_unfolding_all decide

/-- C2 counterexample: the claim as stated is false.  The count 5/2 is
not an integer, yet `geraLote` accepts it (the code checks only the JS
type and positivity) and `analisaRecintos("MACACO", 2.5)` returns a
viable list instead of the InvalidCount error. -/
theorem quantidade_fracionaria_aceita :
    ((5 : Rat) / 2).den = 2 ∧
      geraLote (JSVal.vstr especieMACACO) (JSVal.vnum ((5 : Rat) / 2)) =
        LoteResult.lote (Macaco ((5 : Rat) / 2)) ∧
      analisaRecintos inicializaRecintos (JSVal.vstr especieMACACO)
          (JSVal.vnum ((5 : Rat) / 2)) =
        Saida.recintosViaveis
          [⟨recinto1, 9 / 2⟩, ⟨recinto2, 5 / 2⟩, ⟨recinto3, 3 / 2⟩] := by
  refine ⟨by with_unfolding_all decide, by with_unfolding_all decide,
    by with_unfolding_all decide⟩

/-- C2 (amended): for every string species argument, every count of
number type that is ≤ 0 and every count that is not of number type make
`analisaRecintos` return the "Quantidade inválida" error (and hence
never a viable list); positive non-integer number counts are not
rejected. -/
theorem quantidade_invalida (zoo : List Recinto) (s s2 : String) (q : Rat) (hq : q ≤ 0) :
    analisaRecintos zoo (JSVal.vstr s) (JSVal.vnum q) = Saida.erro msgQuantidadeInvalida ∧
      analisaRecintos zoo (JSVal.vstr s) (JSVal.vstr s2) =
        Saida.erro msgQuantidadeInvalida ∧
      analisaRecintos zoo (JSVal.vstr s) JSVal.vother = Saida.erro msgQuantidadeInvalida := by
  have h1 : geraLote (JSVal.vstr s) (JSVal.vnum q) = LoteResult.erro msgQuantidadeInvalida := by
    simp [geraLote, hq]
  exact ⟨by simp [analisaRecintos, h1], rfl, rfl⟩

/-- C2 witness: count 0 with an unknown species name on the seed zoo. -/
theorem quantidade_invalida_witness :
    (0 : Rat) ≤ 0 ∧
      analisaRecintos inicializaRecintos (JSVal.vstr strCACHORRO) (JSVal.vnum 0) =
          Saida.erro msgQuantidadeInvalida ∧
        analisaRecintos inicializaRecintos (JSVal.vstr strCACHORRO)
            (JSVal.vstr especieMACACO) =
          Saida.erro msgQuantidadeInvalida ∧
        analisaRecintos inicializaRecintos (JSVal.vstr strCACHORRO) JSVal.vother =
          Saida.erro msgQuantidadeInvalida :=
  ⟨le_refl 0, quantidade_invalida inicializaRecintos strCACHORRO especieMACACO 0 (le_refl 0)⟩

/-- C7: hippo cohabitation needs savanna and river in both directions:
a hippopotamus batch comfortable in an enclosure with other species
forces both habitat tags, and a non-hippo batch admitted to an
enclosure with resident hippos forces both habitat tags. -/
theorem hipopotamo_tolerancia_dupla (q : Rat) (r : Recinto) (l : LoteAnimal) :
    (r.temOutrasEspecies especieHIPOPOTAMO = true →
      (Hipopotamo q).estaConfortavel r = true →
      r.biomas.contains biomaSavana = true ∧ r.biomas.contains biomaRio = true) ∧
    (r.listaEspecies.contains especieHIPOPOTAMO = true →
      l.especie ≠ especieHIPOPOTAMO →
      r.consegueAcomodarLote l = true →
      r.biomas.contains biomaSavana = true ∧ r.biomas.contains biomaRio = true) := by
  constructor
  · intro ht hc
    simp only [Hipopotamo, LoteAnimal.estaConfortavel] at hc
    simp only [ht, if_true] at hc
    split at hc
    · simp only [toleraOutrasEspecies, Bool.and_eq_true] at hc
      exact hc
    · exact absurd hc (by simp)
  · intro hh hne hc
    rw [consegueAcomodarLote_eq] at hc
    simp only [Bool.and_eq_true, Bool.not_eq_true'] at hc
    have hne2 : (l.especie != especieHIPOPOTAMO) = true := bne_iff_ne.mpr hne
    have hb := hc.1.2
    cases hra : r.biomas.contains biomaRio with
    | true =>
        cases hsa : r.biomas.contains biomaSavana with
        | true => exact ⟨rfl, rfl⟩
        | false =>
            simp only [bloqueioHipopotamo, hh, hne2, hra, hsa, Bool.and_true, Bool.true_and,
              Bool.not_true, Bool.not_false, Bool.or_true, Bool.true_or, Bool.false_or,
              Bool.or_false] at hb
            exact Bool.noConfusion hb
    | false =>
        simp only [bloqueioHipopotamo, hh, hne2, hra, Bool.and_true, Bool.true_and,
          Bool.not_false, Bool.true_or] at hb
        exact Bool.noConfusion hb

/-- C7 witness: a hippopotamus against seed enclosure 3 (gazelle
resident, savanna and river present) is comfortable, and a gazelle is
admitted to an enclosure with resident hippos that has both tags. -/
theorem hipopotamo_tolerancia_dupla_witness :
    (recinto3.temOutrasEspecies especieHIPOPOTAMO = true ∧
      (Hipopotamo 1).estaConfortavel recinto3 = true ∧
      recinto3.biomas.contains biomaSavana = true ∧
      recinto3.biomas.contains biomaRio = true) ∧
    (recintoComHipopotamo.listaEspecies.contains especieHIPOPOTAMO = true ∧
      (Gazela 1).especie ≠ especieHIPOPOTAMO ∧
      Recinto.consegueAcomodarLote recintoComHipopotamo (Gazela 1) = true ∧
      recintoComHipopotamo.biomas.contains biomaSavana = true ∧
      recintoComHipopotamo.biomas.contains biomaRio = true) := by
  have h1 := (hipopotamo_tolerancia_dupla 1 recinto3 (Gazela 1)).1
    (by with_unfolding_all decide) (by with_unfolding_all decide)
  have h2 := (hipopotamo_tolerancia_dupla 1 recintoComHipopotamo (Gazela 1)).2
    (by with_unfolding_all decide) (by decide) (by with_unfolding_all decide)
  exact ⟨⟨by with_unfolding_all decide, by with_unfolding_all decide, h1.1, h1.2⟩,
    ⟨by with_unfolding_all decide, by decide, by with_unfolding_all decide, h2.1, h2.2⟩⟩

/-- C8: carnivore exclusivity.  `consegueAcomodarLote` rejects whenever
the carnivore flag is set and the batch's species is not resident, and
whenever the batch is carnivorous, the flag is unset and some species
is resident. -/
theorem exclusividade_carnivoros (r : Recinto) (l : LoteAnimal) :
    (r.flagContemCarnivoros = true → r.listaEspecies.contains l.especie = false →
      r.consegueAcomodarLote l = false) ∧
    (l.isCarnivoro = true → r.flagContemCarnivoros = false → 0 < r.listaEspecies.length →
      r.consegueAcomodarLote l = false) := by
  constructor
  · intro hf hcont
    have hb : bloqueioCarnivoro r l = true := by
      simp only [bloqueioCarnivoro, hf, hcont, Bool.not_false, Bool.true_and, Bool.and_self,
        Bool.true_or]
    rw [consegueAcomodarLote_eq]
    simp [hb]
  · intro hcar hf hlen
    have hb : bloqueioCarnivoro r l = true := by
      simp only [bloqueioCarnivoro, hcar, hf, Bool.false_and, Bool.false_or, Bool.not_false,
        Bool.true_and, decide_eq_true_eq]
      exact hlen
    rw [consegueAcomodarLote_eq]
    simp [hb]

/-- C8 witness: monkeys against the lion enclosure (flag set, species
not resident) and a lion against the monkey enclosure (carnivorous
batch, flag unset, one resident species) are both rejected. -/
theorem exclusividade_carnivoros_witness :
    (recinto5.flagContemCarnivoros = true ∧
      recinto5.listaEspecies.contains (Macaco 3).especie = false ∧
      Recinto.consegueAcomodarLote recinto5 (Macaco 3) = false) ∧
    ((Leao 1).isCarnivoro = true ∧ recinto1.flagContemCarnivoros = false ∧
      0 < recinto1.listaEspecies.length ∧
      Recinto.consegueAcomodarLote recinto1 (Leao 1) = false) :=
  ⟨⟨by with_unfolding_all decide, by with_unfolding_all decide,
      (exclusividade_carnivoros recinto5 (Macaco 3)).1
        (by with_unfolding_all decide) (by with_unfolding_all decide)⟩,
    ⟨by decide, by with_unfolding_all decide, by with_unfolding_all decide,
      (exclusividade_carnivoros recinto1 (Leao 1)).2
        (by decide) (by with_unfolding_all decide) (by with_unfolding_all decide)⟩⟩

/-- Helper: the state-passing analysis loop returns every visited
enclosure unchanged, in order. -/
theorem passoAnaliseSt_snd (novoLote : LoteAnimal) (animalStr : String) :
    ∀ (xs : List Recinto) (p : List OpcaoRecinto × List Recinto),
      (List.foldl (passoAnaliseSt novoLote animalStr) p xs).2 = p.2 ++ xs := by
  intro xs
  induction xs with
  | nil => intro p; simp
  | cons x xs ih =>
      intro p
      rw [List.foldl_cons, ih]
      simp [passoAnaliseSt]

/-- Helper: the state-passing analysis loop computes the same viable
list as the plain loop. -/
theorem passoAnaliseSt_fst (novoLote : LoteAnimal) (animalStr : String) :
    ∀ (xs : List Recinto) (p : List OpcaoRecinto × List Recinto),
      (List.foldl (passoAnaliseSt novoLote animalStr) p xs).1 =
        List.foldl (passoAnalise novoLote animalStr) p.1 xs := by
  intro xs
  induction xs with
  | nil => intro p; simp
  | cons x xs ih =>
      intro p
      rw [List.foldl_cons, ih]
      rfl

/-- C9: analysis does not mutate the zoo.  The state-passing form of
`analisaRecintos` returns the enclosure list unchanged and the same
result as the plain function, so a second call against the state left
by the first returns the same result. -/
theorem analisaRecintos_sem_mutacao (zoo : List Recinto) (animal quantidade : JSVal) :
    (analisaRecintosSt zoo animal quantidade).2 = zoo ∧
      (analisaRecintosSt zoo animal quantidade).1 = analisaRecintos zoo animal quantidade ∧
      analisaRecintosSt ((analisaRecintosSt zoo animal quantidade).2) animal quantidade =
        analisaRecintosSt zoo animal quantidade := by
  have h2 : (analisaRecintosSt zoo animal quantidade).2 = zoo := by
    cases hg : geraLote animal quantidade with
    | erro m => simp [analisaRecintosSt, hg]
    | lote nl => simp [analisaRecintosSt, hg, passoAnaliseSt_snd]
  have h1 : (analisaRecintosSt zoo animal quantidade).1 =
      analisaRecintos zoo animal quantidade := by
    cases hg : geraLote animal quantidade with
    | erro m => simp [analisaRecintosSt, analisaRecintos, hg]
    | lote nl => simp [analisaRecintosSt, analisaRecintos, hg, passoAnaliseSt_fst]
  exact ⟨h2, h1, by rw [h2]⟩

/-- C10: validation order at the public interface.  A non-string
species argument yields "Animal inválido" whatever the count; a string
species argument with a count that is not a number, or a number ≤ 0,
yields "Quantidade inválida" even when the species name is unknown. -/
theorem ordem_validacao (zoo : List Recinto) (c : JSVal) (s s2 : String) (q : Rat) :
    analisaRecintos zoo (JSVal.vnum q) c = Saida.erro msgAnimalInvalido ∧
      analisaRecintos zoo JSVal.vother c = Saida.erro msgAnimalInvalido ∧
      (q ≤ 0 →
        analisaRecintos zoo (JSVal.vstr s) (JSVal.vnum q) =
          Saida.erro msgQuantidadeInvalida) ∧
      analisaRecintos zoo (JSVal.vstr s) (JSVal.vstr s2) =
        Saida.erro msgQuantidadeInvalida ∧
      analisaRecintos zoo (JSVal.vstr s) JSVal.vother = Saida.erro msgQuantidadeInvalida := by
  refine ⟨rfl, rfl, ?_, rfl, rfl⟩
  intro hq
  have h1 : geraLote (JSVal.vstr s) (JSVal.vnum q) = LoteResult.erro msgQuantidadeInvalida := by
    simp [geraLote, hq]
  simp [analisaRecintos, h1]

/-- C10 witness: an unknown species name with count -1 yields the
count error, not the species error. -/
theorem ordem_validacao_witness :
    (-1 : Rat) ≤ 0 ∧
      analisaRecintos inicializaRecintos (JSVal.vstr strCACHORRO) (JSVal.vnum (-1)) =
        Saida.erro msgQuantidadeInvalida :=
  ⟨by norm_num,
    (ordem_validacao inicializaRecintos (JSVal.vnum 3) strCACHORRO especieMACACO
        (-1)).2.2.1 (by norm_num)⟩
